import Mathlib

/-!
Verification of the TD3 agent core (src/td3.rs) of TheProfitTaker.

We shallowly embed the parts of the Rust code that the specification's
claims are about: the linear-layer stacks of `Actor` and `Critic`, the
forward passes (including the literal `for layer in &layers[..1]` loop),
the `Tensor::split(batch_size, 1)` call of `TD3::train`, the bootstrap
target computation, the critic loss, the `total_it` counter behaviour,
the target-network synchronization block, the `Critic`
serialize/deserialize key scheme, and the `TD3::save` I/O path.

Tensors are modelled as lists (vectors) and lists of rows (matrices)
over `ℚ` where exact decidable arithmetic is wanted, and over `ℝ` where
the `tanh` bound of the actor is at stake.
-/

set_option autoImplicit false

namespace TD3Spec

/-- A `tch::nn::Linear` layer: a weight matrix `ws` given as its list of
rows (shape `[out, in]`) and an optional bias vector `bs`. -/
structure Linear (α : Type) where
  ws : List (List α)
  bs : Option (List α)
deriving DecidableEq

/-- The default used to model the out-of-bounds panic of `layers[0]` /
`layers.last().unwrap()` on an empty layer list (never reached by the
claims, which all concern nonempty stacks). -/
def emptyLayer (α : Type) : Linear α := ⟨[], none⟩

/-- Dot product of two vectors (zip truncates at the shorter one, matching
the fact that a genuine length mismatch makes the Rust side panic before
producing a value; all claims use well-formed inputs). -/
def dot {α : Type} [CommRing α] (u v : List α) : α :=
  (List.zipWith (fun a b => a * b) u v).sum

/-- Forward pass of `nn::Linear`: `x ↦ ws · x + bs`, bias added when present. -/
def Linear.forward {α : Type} [CommRing α] (l : Linear α) (x : List α) : List α :=
  match l.bs with
  | some b => List.zipWith (fun a c => a + c) (l.ws.map (fun row => dot row x)) b
  | none => l.ws.map (fun row => dot row x)

/-- Elementwise rectifier `relu`. -/
def vecRelu {α : Type} [LinearOrder α] [Zero α] (v : List α) : List α :=
  v.map (fun a => max a 0)

/-- The hidden pass shared verbatim by `Actor::forward`, `Critic::Q1` and
both halves of `Critic::forward` in td3.rs:
`alpha = relu(layers[0](x))` followed by the loop
`for layer in &layers[..1] { alpha = relu(layer(alpha)) }`, which
iterates over the one-element slice `[layers[0]]` and therefore applies
layer 0 a second time while never touching layers `1 .. len-2`. -/
def stackHidden {α : Type} [CommRing α] [LinearOrder α]
    (layers : List (Linear α)) (x : List α) : List α :=
  (layers.take 1).foldl (fun a l => vecRelu (l.forward a))
    (vecRelu ((layers.head?.getD (emptyLayer α)).forward x))

/-- Forward pass of `Actor`: hidden pass, then the last layer, then
`tanh` scaled by `max_action`. -/
noncomputable def actorForward (layers : List (Linear ℝ)) (max_action : ℝ) (x : List ℝ) : List ℝ :=
  ((layers.getLast?.getD (emptyLayer ℝ)).forward (stackHidden layers x)).map
    (fun v => Real.tanh v * max_action)

/-- Forward pass of `Critic::Q1`: hidden pass over the q1 stack, then its last layer. -/
def q1Forward {α : Type} [CommRing α] [LinearOrder α]
    (q1_layers : List (Linear α)) (x : List α) : List α :=
  (q1_layers.getLast?.getD (emptyLayer α)).forward (stackHidden q1_layers x)

/-- Forward pass of `Critic`: both branch outputs concatenated along dim 1
(for a single row, list concatenation). -/
def criticForward {α : Type} [CommRing α] [LinearOrder α]
    (q1_layers q2_layers : List (Linear α)) (x : List α) : List α :=
  q1Forward q1_layers x ++ q1Forward q2_layers x

/-- Number of chunks `torch::split(split_size, dim)` produces along a
dimension of size `dimSize`: `⌈dimSize / split_size⌉`. -/
def numChunks (dimSize chunk : ℕ) : ℕ :=
  if chunk = 0 then 0 else (dimSize + chunk - 1) / chunk

/-- Semantics of `Tensor::split(sz, 1)` on a row-major matrix: consecutive
column blocks of width `sz`, the last possibly narrower. -/
def splitCols (m : List (List ℚ)) (sz : ℕ) : List (List (List ℚ)) :=
  (List.range (numChunks (m.head?.getD []).length sz)).map
    (fun k => m.map (fun row => (row.drop (k * sz)).take sz))

/-- Elementwise binary operation on matrices. -/
def matZip (f : ℚ → ℚ → ℚ) (a b : List (List ℚ)) : List (List ℚ) :=
  List.zipWith (List.zipWith f) a b

/-- Semantics of `multiply_scalar`: every entry multiplied by `c`. -/
def matScale (c : ℚ) (a : List (List ℚ)) : List (List ℚ) :=
  a.map (List.map (fun v => v * c))

/-- The gradient-isolated bootstrap-target computation of `TD3::train`
(td3.rs lines 645-669), taking the critic_target output matrix `q`
already evaluated: `split_q = q.split(batch_size, 1)`, then
`target_q1 = split_q[0]`, `target_q2 = split_q[1]`,
`min_q = target_q1.min_other(target_q2)` and finally
`reward + (not_done * min_q) * discount`. The Rust indexing
`split_q[1]` panics when the split has fewer than two chunks; that
panic is modelled as `none`. -/
def trainTargetQ (discount : ℚ) (batch : ℕ)
    (q reward notDone : List (List ℚ)) : Option (List (List ℚ)) :=
  let sq := splitCols q batch
  match sq[0]?, sq[1]? with
  | some tq1, some tq2 =>
      some (matZip (fun a b => a + b) reward
        (matScale discount (matZip (fun a b => a * b) notDone (matZip min tq1 tq2))))
  | _, _ => none

/-- Semantics of `mse_loss(x, target, Reduction::None)`: the elementwise
squared error, left as a tensor. -/
def mseLossNone (q t : List ℚ) : List ℚ :=
  List.zipWith (fun a b => (a - b) * (a - b)) q t

/-- The critic loss exactly as td3.rs lines 679-681 build it:
`q1.mse_loss(target, None) + q2.mse_loss(target, None)`, an unreduced
elementwise tensor. -/
def codeCriticLoss (q1 q2 t : List ℚ) : List ℚ :=
  List.zipWith (fun a b => a + b) (mseLossNone q1 t) (mseLossNone q2 t)

/-- Mean-reduced squared error, as the spec's `mean_squared_error`. -/
def mseLossMean (q t : List ℚ) : ℚ :=
  (mseLossNone q t).sum / (q.length : ℚ)

/-- Modelled from the spec: `critic_loss = mean_squared_error(q1, target_q)
+ mean_squared_error(q2, target_q)`, a scalar; stated for comparison with
`codeCriticLoss`. -/
def specCriticLoss (q1 q2 t : List ℚ) : ℚ :=
  mseLossMean q1 t + mseLossMean q2 t

/-- The fields of `TD3` that govern counting and the delayed block. -/
structure AgentStep where
  total_it : ℤ
  policy_freq : ℤ
  sync_events : ℕ
deriving DecidableEq

/-- Effect of one `TD3::train` call (td3.rs lines 641-724) on `total_it`
and on whether the delayed actor-update/synchronization block runs: the
body reads `total_it` once, in the guard
`self.total_it % self.policy_freq == 0`, and never writes it. -/
def trainStepCounter (s : AgentStep) : AgentStep :=
  if s.total_it % s.policy_freq = 0 then
    { s with sync_events := s.sync_events + 1 }
  else s

/-- Iterates `n` consecutive `train` calls. -/
def trainIter : ℕ → AgentStep → AgentStep
  | 0, s => s
  | n + 1, s => trainIter n (trainStepCounter s)

/-- The synchronization block of `TD3::train` (td3.rs lines 687-723): for
each zipped pair of an online layer `param` and a target layer
`target_param`, it executes `param.ws.copy_(&target_param.ws)` — i.e. it
overwrites the ONLINE weight with the TARGET weight, touches no bias, and
leaves the target networks untouched. Returns (new online, new target). -/
def codeSyncLayers (online target : List (Linear ℚ)) :
    List (Linear ℚ) × List (Linear ℚ) :=
  (List.zipWith (fun p t => { p with ws := t.ws }) online target ++
     online.drop target.length,
   target)

/-- Modelled from the spec: the canonical soft update
`target_param ← tau * online_param + (1 - tau) * target_param` applied
elementwise to every weight tensor; stated for comparison with
`codeSyncLayers`. -/
def specSoftUpdate (tau : ℚ) (online target : List (Linear ℚ)) :
    List (Linear ℚ) :=
  List.zipWith (fun p t =>
    Linear.mk
      (List.zipWith (List.zipWith (fun pw tw => tau * pw + (1 - tau) * tw)) p.ws t.ws)
      t.bs)
    online target

/-- Layer in/out dimension pairs built by `Actor::new` (td3.rs 31-48): the
constructor assembles `shape = state_dim :: nn_shape ++ [action_dim]` but
then never uses it — the construction loop `for x in 1..nn_shape.len()`
runs over the ORIGINAL hidden-shape list, so `state_dim` and `action_dim`
are discarded. -/
def actorLayerDims (state_dim action_dim : ℤ) (nn_shape : List ℤ) :
    List (ℤ × ℤ) :=
  let shape := state_dim :: (nn_shape ++ [action_dim])
  let _unused := shape
  List.zip nn_shape nn_shape.tail

/-- Layer dimension pairs built for one critic branch by `Critic::new`
(td3.rs 215-250): here the loop does use the extended list
`state_dim :: shape ++ [action_dim]`, so the branch consumes `state_dim`
inputs (not `state_dim + action_dim`) and emits `action_dim` outputs
(not the scalar 1). -/
def criticLayerDims (state_dim action_dim : ℤ) (shape : List ℤ) :
    List (ℤ × ℤ) :=
  let full := state_dim :: (shape ++ [action_dim])
  List.zip full full.tail

/-- A value stored in the flat string-keyed persistence map. The Rust code
string-encodes every value (JSON); we keep the decoded shape, since the
claims at stake turn on which KEYS exist, not on string escaping. -/
inductive SVal where
  | nat (n : ℕ)
  | shape (s : List ℤ)
  | data (d : List ℚ)
deriving DecidableEq

/-- The critic's two layer stacks, as the persistence code sees them. -/
structure CriticNet where
  q1_layers : List (Linear ℚ)
  q2_layers : List (Linear ℚ)
deriving DecidableEq

/-- Shape `[rows, cols]` of a weight matrix, as `Tensor::size()` reports it. -/
def wsShape (l : Linear ℚ) : List ℤ :=
  [Int.ofNat l.ws.length, Int.ofNat (l.ws.head?.getD []).length]

/-- Row-major flattening of a weight matrix, as `copy_data` produces it. -/
def wsFlat (l : Linear ℚ) : List ℚ :=
  l.ws.flatten

/-- The four (or two) entries `Critic::serialize` (td3.rs 291-406) emits
for one layer: note the key stems `_tensor_shape` / `_tensor_data` for
the weight, with no `weight` in them. -/
def serLayerEntries (stem : String) (idx : ℕ) (l : Linear ℚ) :
    List (String × SVal) :=
  let layer_name := stem ++ toString idx
  [(layer_name ++ "_tensor_shape", SVal.shape (wsShape l)),
   (layer_name ++ "_tensor_data", SVal.data (wsFlat l))] ++
  (match l.bs with
   | some b =>
       [(layer_name ++ "_tensor_bias_shape", SVal.shape [Int.ofNat b.length]),
        (layer_name ++ "_tensor_bias_data", SVal.data b)]
   | none => [])

/-- Embedding of `Critic::serialize`: the count headers followed by the
per-layer entries of both branches. -/
def criticSerialize (c : CriticNet) : List (String × SVal) :=
  [("num_q1_layers", SVal.nat c.q1_layers.length),
   ("num_q2_layers", SVal.nat c.q2_layers.length)] ++
  (c.q1_layers.enum.flatMap (fun p => serLayerEntries ("q1_layer_") p.1 p.2)) ++
  (c.q2_layers.enum.flatMap (fun p => serLayerEntries ("q2_layer_") p.1 p.2))

/-- Lookup `map.get(key)` on the deserialized flat map. -/
def lookupKey (m : List (String × SVal)) (k : String) : Option SVal :=
  m.lookup k

/-- Reading a count header via `.expect(..).parse::<i64>()`: a missing key
or a non-numeric value panics, modelled as `none`. -/
def getNat (v : Option SVal) : Option ℕ :=
  match v with
  | some (SVal.nat n) => some n
  | _ => none

/-- Rebuild an `[r, c]` matrix from its flattened data,
failing (as `Tensor::f_from_data_size` does) when the element count
disagrees with the shape. -/
def unflattenRows (shape : List ℤ) (d : List ℚ) : Option (List (List ℚ)) :=
  match shape with
  | [r, c] =>
      if d.length = r.toNat * c.toNat then
        some ((List.range r.toNat).map (fun i => (d.drop (i * c.toNat)).take c.toNat))
      else none
  | _ => none

/-- One layer of `Critic::deserialize` (td3.rs 408-551): it looks up the
keys `{stem}{idx}_tensor_weight_shape` / `_tensor_weight_data` (with
`weight`!), panicking — modelled as `none` — when absent; the bias is
rebuilt only when `{stem}{idx}_tensor_bias_data` is present. -/
def deserLayer (m : List (String × SVal)) (stem : String) (idx : ℕ) :
    Option (Linear ℚ) := do
  let layer_name := stem ++ toString idx
  let shp ← match lookupKey m (layer_name ++ "_tensor_weight_shape") with
    | some (SVal.shape s) => some s
    | _ => none
  let dta ← match lookupKey m (layer_name ++ "_tensor_weight_data") with
    | some (SVal.data d) => some d
    | _ => none
  let ws ← unflattenRows shp dta
  let bs ← match lookupKey m (layer_name ++ "_tensor_bias_data") with
    | some _ =>
        (match lookupKey m (layer_name ++ "_tensor_bias_shape"),
               lookupKey m (layer_name ++ "_tensor_bias_data") with
         | some (SVal.shape s), some (SVal.data bd) =>
             if bd.length = (s.head?.getD 0).toNat then some (some bd) else none
         | _, _ => none)
    | none => some none
  some (Linear.mk ws bs)

/-- Embedding of `Critic::deserialize`: read both count headers, then
rebuild each branch layer by layer. Any panic along the way is `none`. -/
def criticDeserialize (m : List (String × SVal)) : Option CriticNet := do
  let n1 ← getNat (lookupKey m ("num_q1_layers"))
  let n2 ← getNat (lookupKey m ("num_q2_layers"))
  let q1 ← (List.range n1).mapM (fun i => deserLayer m ("q1_layer_") i)
  let q2 ← (List.range n2).mapM (fun i => deserLayer m ("q2_layer_") i)
  some (CriticNet.mk q1 q2)

/-- A freshly constructed one-layer-per-branch critic used to exhibit the
round-trip failure; the q2 layer has no bias, matching the claim's
bias-optional case. -/
def criticEx : CriticNet :=
  CriticNet.mk [Linear.mk [[1, 2]] (some [3])] [Linear.mk [[4, 5]] none]

/-- An open file handle: `File::open` yields a read-only one. -/
structure FileHandle where
  name : String
  writable : Bool
deriving DecidableEq

/-- The file system as a flat name → contents map. -/
def FileSys : Type := List (String × String)

/-- Rust `std::fs::File::open`: opens an EXISTING file for READING; it
neither creates the file nor permits writes through the handle. -/
def fileOpen (fs : FileSys) (name : String) : Except String FileHandle :=
  if (List.lookup name fs).isSome then Except.ok (FileHandle.mk name false)
  else Except.error ("No such file or directory")

/-- Writing via `Write::write_all` through a handle: fails on a read-only
handle (EBADF), rewrites the file's contents through a writable one. -/
def writeAll (fs : FileSys) (h : FileHandle) (contents : String) :
    Except String FileSys :=
  if h.writable then
    Except.ok ((h.name, contents) :: List.filter (fun p => p.1 != h.name) fs)
  else Except.error ("Bad file descriptor")

/-- Embedding of `TD3::save(filename)` (td3.rs 726-738): serialize the networks to a
JSON string (always succeeds; abstracted as the given `contents`), then
`File::open(filename)?` followed by `file.write_all(..)?`. Returns the
call's result together with the file system it leaves behind. -/
def td3Save (fs : FileSys) (filename contents : String) :
    Except String Unit × FileSys :=
  match fileOpen fs filename with
  | Except.error e => (Except.error e, fs)
  | Except.ok h =>
      match writeAll fs h contents with
      | Except.error e => (Except.error e, fs)
      | Except.ok fs2 => (Except.ok (), fs2)

/-- Tests whether an `Except` is `ok`, without relying on library naming. -/
def exceptOk {ε α : Type} : Except ε α → Bool
  | Except.ok _ => true
  | Except.error _ => false

/-- Concrete first layer for the layer-skipping check. -/
def layerA : Linear ℝ := Linear.mk [[1]] none

/-- Concrete middle layer for the layer-skipping check. -/
def layerB : Linear ℝ := Linear.mk [[2]] (some [1])

/-- Alternative middle layer, differing from `layerB` in every parameter. -/
def layerB2 : Linear ℝ := Linear.mk [[5]] none

/-- Concrete last layer for the layer-skipping check. -/
def layerC : Linear ℝ := Linear.mk [[3]] none

/-- Unfolds the hidden pass on a nonempty stack: the loop over
`&layers[..1]` re-applies layer 0, so the hidden activation is two
applications of layer 0 and nothing else. -/
theorem stackHidden_cons {α : Type} [CommRing α] [LinearOrder α]
    (l0 : Linear α) (rest : List (Linear α)) (x : List α) :
    stackHidden (l0 :: rest) x = vecRelu (l0.forward (vecRelu (l0.forward x))) := rfl

/-- Lists with the same first layer give the same hidden activation. -/
theorem stackHidden_head_congr {α : Type} [CommRing α] [LinearOrder α]
    (ls ls' : List (Linear α)) (x : List α) (hh : ls.head? = ls'.head?) :
    stackHidden ls x = stackHidden ls' x := by
  cases ls with
  | nil =>
    cases ls' with
    | nil => rfl
    | cons b t' => simp at hh
  | cons a t =>
    cases ls' with
    | nil => simp at hh
    | cons b t' =>
      simp at hh
      rw [stackHidden_cons, stackHidden_cons, hh]

/-- Bound on the hyperbolic tangent, from `|sinh| < cosh`. -/
theorem abs_tanh_le_one (z : ℝ) : |Real.tanh z| ≤ 1 := by
  rw [Real.tanh_eq_sinh_div_cosh, abs_div, abs_of_pos (Real.cosh_pos z),
    div_le_one (Real.cosh_pos z)]
  rcases abs_cases (Real.sinh z) with ⟨h1, _⟩ | ⟨h1, _⟩
  · rw [h1]; exact (Real.sinh_lt_cosh z).le
  · rw [h1]
    have h2 := Real.sinh_lt_cosh (-z)
    rw [Real.sinh_neg, Real.cosh_neg] at h2
    linarith

/-- C1: the claim says every `train` call increments `total_it` by one, so
`n` calls add `n`. In the code `total_it` is never written: after any `n`
consecutive calls it equals its starting value, and starting from the
constructor's `total_it = 0` with `policy_freq = 2` the guard
`total_it % policy_freq == 0` holds on every one of 3 calls, so the
delayed block runs 3 times instead of the claimed 1. -/
theorem train_total_it_constant :
    (∀ (n : ℕ) (s : AgentStep), (trainIter n s).total_it = s.total_it) ∧
    (trainIter 3 (AgentStep.mk 0 2 0)).total_it = 0 ∧
    (trainIter 3 (AgentStep.mk 0 2 0)).sync_events = 3 := by
  refine ⟨?_, by decide, by decide⟩
  intro n
  induction n with
  | zero => intro s; rfl
  | succ k ih =>
    intro s
    have h1 : trainIter (k + 1) s = trainIter k (trainStepCounter s) := rfl
    rw [h1, ih]
    unfold trainStepCounter
    by_cases h : s.total_it % s.policy_freq = 0 <;> simp [h]

/-- C2: the claim says the synchronization step performs
`target ← tau*online + (1-tau)*target` and leaves the online nets alone.
The code does the reverse: the target stacks come back unchanged (first
conjunct, for ALL inputs), the online weight is hard-overwritten with the
target weight while biases survive (second conjunct), the canonical rule
would instead have moved the target weight to `1/2` at `tau = 1/2` (third
conjunct), and the online net is genuinely modified (fourth conjunct). -/
theorem sync_reverse_hard_copy :
    (∀ online target : List (Linear ℚ), (codeSyncLayers online target).2 = target) ∧
    codeSyncLayers [Linear.mk [[1]] (some [7])] [Linear.mk [[0]] (some [9])] =
      ([Linear.mk [[0]] (some [7])], [Linear.mk [[0]] (some [9])]) ∧
    specSoftUpdate (1/2) [Linear.mk [[1]] (some [7])] [Linear.mk [[0]] (some [9])] =
      [Linear.mk [[1/2]] (some [9])] ∧
    (codeSyncLayers [Linear.mk [[1]] (some [7])] [Linear.mk [[0]] (some [9])]).1 ≠
      [Linear.mk [[1]] (some [7])] := by
  refine ⟨fun o t => rfl, by norm_num [codeSyncLayers], by norm_num [specSoftUpdate], ?_⟩
  norm_num [codeSyncLayers]

/-- C3: the claim says serialize-then-deserialize reproduces every critic
layer exactly. On a freshly built one-layer-per-branch critic the
deserialization of the serialized map fails outright: `Critic::serialize`
emits the weight under `q1_layer_0_tensor_shape` / `_tensor_data`, while
`Critic::deserialize` demands `q1_layer_0_tensor_weight_shape`, a key the
serializer never writes. -/
theorem critic_roundtrip_fails :
    criticDeserialize (criticSerialize criticEx) = none ∧
    lookupKey (criticSerialize criticEx) ("q1_layer_0_tensor_weight_shape") = none ∧
    lookupKey (criticSerialize criticEx) ("q1_layer_0_tensor_shape") =
      some (SVal.shape [1, 2]) := by
  exact ⟨by decide, by decide, by decide⟩

/-- C4: the claim says the actor maps `[B, state_dim]` to `[B, action_dim]`
and the critic returns `[B, 2]`. With `state_dim = 4`, `action_dim = 2`
and the default hidden shape, `Actor::new` wires `256→256, 256→256`: the
final output width is 256, not `action_dim`, and the input width is 256,
not `state_dim`; each critic branch is wired `4→256→256→256→2`, consuming
`state_dim` (not the concatenated `state_dim + action_dim`) and emitting
`action_dim` columns (not the scalar 1), so the concatenated output has
`2*action_dim` columns, not 2. -/
theorem constructor_dims_ignore_state_action :
    actorLayerDims 4 2 [256, 256, 256] = [(256, 256), (256, 256)] ∧
    (actorLayerDims 4 2 [256, 256, 256]).getLast?.map Prod.snd ≠ some 2 ∧
    (actorLayerDims 4 2 [256, 256, 256]).head?.map Prod.fst ≠ some 4 ∧
    criticLayerDims 4 2 [256, 256, 256] = [(4, 256), (256, 256), (256, 256), (256, 2)] ∧
    (criticLayerDims 4 2 [256, 256, 256]).head?.map Prod.fst ≠ some (4 + 2) ∧
    (criticLayerDims 4 2 [256, 256, 256]).getLast?.map Prod.snd ≠ some 1 := by decide

/-- C5: the claim says every `train` call computes
`target_q = reward + not_done * discount * min(tq1, tq2)`. With
`batch_size = 2` (indeed any `batch_size ≥ 2`) the split of the 2-wide
second dimension yields a single chunk and `split_q[1]` is out of bounds:
the call dies before any `target_q` exists (first conjunct). Only at
`batch_size = 1` does the code produce the claimed formula (second
conjunct). -/
theorem train_target_split_and_formula :
    trainTargetQ (99/100) 2 [[1, 2]] [[5]] [[1]] = none ∧
    (∀ d r nd t1 t2 : ℚ, trainTargetQ d 1 [[t1, t2]] [[r]] [[nd]] =
      some [[r + nd * min t1 t2 * d]]) := by
  refine ⟨by decide, ?_⟩
  intro d r nd t1 t2
  simp [trainTargetQ, splitCols, numChunks, matZip, matScale, List.range_succ]

/-- C6: the claim says `critic_loss` is the sum of the two branches'
MEAN-reduced squared errors. The code passes `Reduction::None`: on
`q1 = q2 = [0,0]`, `target = [1,3]` it builds the elementwise tensor
`[2, 18]` whereas the claimed loss is the scalar `5 + 5 = 10`; even the
tensor's sum (20) differs. The two coincide only on one-element batches
(last conjunct). -/
theorem critic_loss_not_mean_reduced :
    codeCriticLoss [0, 0] [0, 0] [1, 3] = [2, 18] ∧
    specCriticLoss [0, 0] [0, 0] [1, 3] = 10 ∧
    (codeCriticLoss [0, 0] [0, 0] [1, 3]).sum ≠ specCriticLoss [0, 0] [0, 0] [1, 3] ∧
    (∀ a b t : ℚ, codeCriticLoss [a] [b] [t] = [specCriticLoss [a] [b] [t]]) := by
  refine ⟨by norm_num [codeCriticLoss, mseLossNone],
    by norm_num [specCriticLoss, mseLossNone, mseLossMean],
    by norm_num [codeCriticLoss, specCriticLoss, mseLossNone, mseLossMean], ?_⟩
  intro a b t
  simp [codeCriticLoss, specCriticLoss, mseLossNone, mseLossMean]

/-- C7: the claim says `save` writes the serialized state to the
destination and returns success, failing only on I/O errors. Because the
code opens the destination with `File::open` — read-only, existing files
only — every call fails: on a missing file the open errors, on an
existing file the `write_all` through the read-only handle errors; in
both cases the file system is left exactly as it was. -/
theorem save_never_succeeds (fs : FileSys) (filename contents : String) :
    exceptOk (td3Save fs filename contents).1 = false ∧
    (td3Save fs filename contents).2 = fs := by
  unfold td3Save fileOpen writeAll
  by_cases h : (List.lookup filename fs).isSome <;> simp [h, exceptOk]

/-- C8: every element of `actor.forward(x)` lies in
`[-max_action, max_action]` (the interval's stated form presumes the
clamp bound `max_action` is nonnegative): each output is
`tanh(v) * max_action` with `|tanh(v)| ≤ 1`. -/
theorem actor_output_bounded (layers : List (Linear ℝ)) (max_action : ℝ)
    (hm : 0 ≤ max_action) (x : List ℝ) :
    ∀ y ∈ actorForward layers max_action x, -max_action ≤ y ∧ y ≤ max_action := by
  intro y hy
  rw [actorForward, List.mem_map] at hy
  obtain ⟨v, _, rfl⟩ := hy
  have habs : |Real.tanh v * max_action| ≤ max_action := by
    rw [abs_mul, abs_of_nonneg hm]
    calc |Real.tanh v| * max_action ≤ 1 * max_action :=
          mul_le_mul_of_nonneg_right (abs_tanh_le_one v) hm
      _ = max_action := one_mul _
  exact abs_le.1 habs

/-- Witness for C8 at a concrete one-layer actor with `max_action = 1`. -/
theorem actor_output_bounded_check :
    (0 : ℝ) ≤ 1 ∧
    ∀ y ∈ actorForward [Linear.mk [[1]] none] 1 [1], -1 ≤ y ∧ y ≤ 1 :=
  ⟨by norm_num, actor_output_bounded [Linear.mk [[1]] none] 1 (by norm_num) [1]⟩

/-- C9: in `Actor::forward`, `Critic::Q1` and `Critic::forward` the
hidden loop runs over `layers[..1]`, so layer 0 is applied twice and the
layers at indices `1 .. len-2` are never applied: all three outputs are
unchanged when the layer lists are replaced by any lists with the same
first and last elements, and the hidden activation is literally two
applications of the first layer (last conjunct). -/
theorem forward_depends_only_on_first_and_last
    (a1 a1' c1 c1' c2 c2' : List (Linear ℝ)) (m : ℝ) (x : List ℝ)
    (ha : a1.head? = a1'.head?) (hal : a1.getLast? = a1'.getLast?)
    (hc1 : c1.head? = c1'.head?) (hc1l : c1.getLast? = c1'.getLast?)
    (hc2 : c2.head? = c2'.head?) (hc2l : c2.getLast? = c2'.getLast?) :
    actorForward a1 m x = actorForward a1' m x ∧
    q1Forward c1 x = q1Forward c1' x ∧
    criticForward c1 c2 x = criticForward c1' c2' x ∧
    stackHidden a1 x =
      vecRelu ((a1.head?.getD (emptyLayer ℝ)).forward
        (vecRelu ((a1.head?.getD (emptyLayer ℝ)).forward x))) := by
  have hq : ∀ u u' : List (Linear ℝ), u.head? = u'.head? → u.getLast? = u'.getLast? →
      q1Forward u x = q1Forward u' x := by
    intro u u' h1 h2
    unfold q1Forward
    rw [stackHidden_head_congr u u' x h1, h2]
  refine ⟨?_, hq c1 c1' hc1 hc1l, ?_, ?_⟩
  · unfold actorForward
    rw [stackHidden_head_congr a1 a1' x ha, hal]
  · unfold criticForward
    rw [hq c1 c1' hc1 hc1l, hq c2 c2' hc2 hc2l]
  · cases a1 with
    | nil => rfl
    | cons l0 rest => rfl

/-- Witness for C9: swapping the middle layer `layerB` (weight 2, bias 1)
for `layerB2` (weight 5, no bias) changes none of the three outputs. -/
theorem forward_depends_check :
    actorForward [layerA, layerB, layerC] 1 [1] = actorForward [layerA, layerB2, layerC] 1 [1] ∧
    q1Forward [layerA, layerB, layerC] [1] = q1Forward [layerA, layerB2, layerC] [1] ∧
    criticForward [layerA, layerB, layerC] [layerA, layerB, layerC] [1] =
      criticForward [layerA, layerB2, layerC] [layerA, layerB2, layerC] [1] ∧
    stackHidden [layerA, layerB, layerC] [1] =
      vecRelu ((([layerA, layerB, layerC] : List (Linear ℝ)).head?.getD (emptyLayer ℝ)).forward
        (vecRelu ((([layerA, layerB, layerC] : List (Linear ℝ)).head?.getD (emptyLayer ℝ)).forward [1]))) :=
  forward_depends_only_on_first_and_last _ _ _ _ _ _ 1 [1] rfl (by simp) rfl (by simp) rfl (by simp)

/-- C10: splitting a two-column matrix along dimension 1 into chunks of
size `b ≥ 2` yields exactly one chunk, so index 1 — used as `split_q[1]`
in both the target computation and the critic update — is past the end;
only `b = 1` yields the intended two single-column chunks. -/
theorem split_two_columns (m : List (List ℚ)) (b : ℕ)
    (hrow : (m.head?.getD []).length = 2) (hb : 2 ≤ b) :
    (splitCols m b).length = 1 ∧
    (splitCols m b)[1]? = none ∧
    (splitCols m 1).length = 2 ∧
    (splitCols m 1)[0]? = some (m.map (fun row => row.take 1)) ∧
    (splitCols m 1)[1]? = some (m.map (fun row => (row.drop 1).take 1)) := by
  have hn : numChunks (m.head?.getD []).length b = 1 := by
    rw [hrow]
    unfold numChunks
    have h0 : ¬ b = 0 := by omega
    rw [if_neg h0, show 2 + b - 1 = b + 1 by omega, Nat.div_eq_of_lt_le] <;> omega
  have hn1 : numChunks (m.head?.getD []).length 1 = 2 := by rw [hrow]; rfl
  refine ⟨by simp [splitCols, hn], ?_, by simp [splitCols, hn1], ?_, ?_⟩
  · apply List.getElem?_eq_none
    simp [splitCols, hn]
  · simp [splitCols, hn1, List.range_succ]
  · simp [splitCols, hn1, List.range_succ]

/-- Witness for C10 on the `[2, 2]` matrix `[[1,2],[3,4]]` with the
default `batch_size = 256`. -/
theorem split_two_columns_check :
    (splitCols [[1, 2], [3, 4]] 256).length = 1 ∧
    (splitCols [[1, 2], [3, 4]] 256)[1]? = none ∧
    (splitCols [[1, 2], [3, 4]] 1).length = 2 ∧
    (splitCols [[1, 2], [3, 4]] 1)[0]? =
      some (([[1, 2], [3, 4]] : List (List ℚ)).map (fun row => row.take 1)) ∧
    (splitCols [[1, 2], [3, 4]] 1)[1]? =
      some (([[1, 2], [3, 4]] : List (List ℚ)).map (fun row => (row.drop 1).take 1)) :=
  split_two_columns [[1, 2], [3, 4]] 256 (by decide) (by decide)

end TD3Spec
